import Mathlib

/-!
Verification of the sofa-mosn upstream cluster-management subsystem.

The definitions below are a shallow embedding of
`pkg/upstream/healthcheck/factory.go` and the cluster-manager code of
`pkg/upstream/cluster` (the health-check session factory registry, the
cluster manager with its primary-cluster registry, the RCU-backed
configuration snapshots, and the connection-pool selection loop
`getActiveConnectionPool`).  Go maps and `sync.Map`s are modelled as
association lists with Go-map semantics (at most one live binding per key);
stateful methods become explicit state-passing functions.  Parts of the
repository that the provided sources only call into (the `rcu` package,
`NewCluster`, `NewHost`, `simpleInMemCluster.UpdateHosts`) are modelled from
the specification and marked as such on their doc comments.
-/

namespace Mosn

/-- Association-list lookup with Go-map semantics (first binding wins). -/
def mapFind {α : Type} : List (String × α) → String → Option α
  | [], _ => none
  | (k0, v0) :: t, k => if k0 = k then some v0 else mapFind t k

/-- Association-list store with Go-map semantics: replace the binding of an
existing key, otherwise append a fresh binding. -/
def mapStore {α : Type} : List (String × α) → String → α → List (String × α)
  | [], k, v => [(k, v)]
  | (k0, v0) :: t, k, v =>
    if k0 = k then (k, v) :: t else (k0, v0) :: mapStore t k v

/-- Association-list delete with Go-map semantics: drop every binding of the
key (Go maps hold at most one). -/
def mapDelete {α : Type} : List (String × α) → String → List (String × α)
  | [], _ => []
  | (k0, v0) :: t, k =>
    if k0 = k then mapDelete t k else (k0, v0) :: mapDelete t k

/-- A health-check session factory (`types.HealthCheckSessionFactory`):
either the built-in TCP-dial fallback `TCPDialSessionFactory` or a factory
registered under some protocol name. -/
inductive SessionFactory where
  | tcpDial : SessionFactory
  | custom : String → SessionFactory
deriving DecidableEq

/-- The part of `v2.HealthCheck` the factory inspects: the protocol string;
the remaining fields are opaque to `CreateHealthCheck` and collapsed into a
single abstract component. -/
structure HealthCheckCfg where
  protocol : String
  rest : Nat
deriving DecidableEq

/-- A health checker as far as the factory is concerned: the configuration it
was built from and the session factory it was given (`newHealthChecker`). -/
structure HealthChecker where
  cfg : HealthCheckCfg
  sessionFactory : SessionFactory
deriving DecidableEq

/-- `newHealthChecker(cfg, cluster, f)`: binds a configuration to the chosen
session factory (the cluster argument plays no role in factory selection). -/
def newHealthChecker (cfg : HealthCheckCfg) (f : SessionFactory) : HealthChecker :=
  ⟨cfg, f⟩

/-- `RegisterSessionFactory(p, f)`: store the factory under the protocol. -/
def RegisterSessionFactory (factories : List (String × SessionFactory))
    (p : String) (f : SessionFactory) : List (String × SessionFactory) :=
  mapStore factories p f

/-- `CreateHealthCheck(cfg, cluster)`: look up the session factory registered
for `cfg.Protocol`; if none is registered, fall back to
`TCPDialSessionFactory`. -/
def CreateHealthCheck (factories : List (String × SessionFactory))
    (cfg : HealthCheckCfg) : HealthChecker :=
  match mapFind factories cfg.protocol with
  | some f => newHealthChecker cfg f
  | none => newHealthChecker cfg .tcpDial

/-- `RegisterCommonCallbacks(name, cb)`: if the name is taken, keep the
existing callback and return false; otherwise store the callback — and return
false as well (the function has no true-returning path).  Callbacks are
identified by an abstract id. -/
def RegisterCommonCallbacks (callbacks : List (String × Nat))
    (name : String) (cb : Nat) : List (String × Nat) × Bool :=
  match mapFind callbacks name with
  | some _ => (callbacks, false)
  | none => (mapStore callbacks name cb, false)

/-- `v2.Host`: the host configuration fields relevant to the claims. -/
structure V2Host where
  address : String
  hostname : String
  weight : Nat
deriving DecidableEq

/-- `v2.Cluster`: name, host list, and an abstract component standing for the
remaining configuration fields (so that `reflect.DeepEqual` on configurations
is structural equality). -/
structure V2Cluster where
  name : String
  hosts : List V2Host
  rest : Nat
deriving DecidableEq

/-- A `types.Host` as the cluster manager observes it: it carries its `v2.Host`
configuration and answers `AddressString` and `Config` from it. -/
structure Host where
  config : V2Host
deriving DecidableEq

/-- `host.AddressString()`. -/
def Host.addressString (h : Host) : String := h.config.address

/-- Modelled from the spec: `NewHost` (pkg/upstream/cluster, not among the
provided sources) builds a `types.Host` from its `v2.Host` configuration; the
cluster-info argument does not affect identity or address. -/
def NewHost (hc : V2Host) : Host := ⟨hc⟩

/-- `simpleInMemCluster`: name, current host list, and the priority set
(host sets indexed by priority, dense from 0). -/
structure SimpleInMemCluster where
  name : String
  hosts : List Host
  prioritySet : List (List Host)
deriving DecidableEq

/-- Modelled from the spec: `simpleInMemCluster.UpdateHosts`
(pkg/upstream/cluster, not among the provided sources) replaces the cluster's
host list and rebuilds the host set at priority 0 (endpoint updates are
hard-coded to priority 0). -/
def SimpleInMemCluster.updateHosts (c : SimpleInMemCluster) (hs : List Host) :
    SimpleInMemCluster :=
  { c with
    hosts := hs,
    prioritySet :=
      match c.prioritySet with
      | [] => [hs]
      | _ :: t => hs :: t }

/-- Modelled from the spec: `NewCluster` (pkg/upstream/cluster, not among the
provided sources) builds a simple in-memory cluster from a `v2.Cluster`
configuration, with no hosts and an empty priority set until the first host
update; construction always succeeds. -/
def NewCluster (cfg : V2Cluster) : SimpleInMemCluster :=
  ⟨cfg.name, [], []⟩

/-- Modelled from the spec: the `rcu.Value` cell (pkg/rcu, not among the
provided sources).  The cell holds the current configuration value and the
count of outstanding readers of that value. -/
structure RcuValue where
  current : V2Cluster
  readerCount : Nat
deriving DecidableEq

/-- `rcu.Value.Load()`: return the current value and increment its reader
count. -/
def RcuValue.load (v : RcuValue) : V2Cluster × RcuValue :=
  (v.current, { v with readerCount := v.readerCount + 1 })

/-- `rcu.Value.Put(cfg)`: hand a loaded value back, decrementing the reader
count. -/
def RcuValue.put (v : RcuValue) (_cfg : V2Cluster) : RcuValue :=
  { v with readerCount := v.readerCount - 1 }

/-- The `rcu.Block` signal. -/
inductive RcuErr where
  | block : RcuErr
deriving DecidableEq

/-- Modelled from the spec: `rcu.Value.Update(cfg, timeout)` installs the new
value as current; if outstanding readers of the previous value have not
drained within the timeout it reports `Block` (the new value stays active for
future readers). -/
def RcuValue.update (v : RcuValue) (cfg : V2Cluster) : RcuValue × Option RcuErr :=
  if v.readerCount = 0 then (⟨cfg, 0⟩, none) else (⟨cfg, 0⟩, some .block)

/-- `primaryCluster`: the manager's authoritative record for one cluster. -/
structure PrimaryCluster where
  cluster : SimpleInMemCluster
  addedViaAPI : Bool
  configUsed : V2Cluster
  configLock : RcuValue
deriving DecidableEq

/-- `NewPrimaryCluster(cluster, config, addedViaAPI)`. -/
def NewPrimaryCluster (c : SimpleInMemCluster) (cfg : V2Cluster)
    (viaAPI : Bool) : PrimaryCluster :=
  { cluster := c, addedViaAPI := viaAPI, configUsed := cfg, configLock := ⟨cfg, 0⟩ }

/-- `deepCopyCluster`: a value copy of the configuration (value semantics make
this the identity). -/
def deepCopyCluster (c : V2Cluster) : V2Cluster := c

/-- `primaryCluster.UpdateCluster(cluster, config, addedViaAPI)`: replace the
cluster value and configuration and push the configuration through the RCU
cell; a `Block` signal is reported but the replacement stays in place. -/
def PrimaryCluster.updateCluster (pc : PrimaryCluster) (c : SimpleInMemCluster)
    (cfg : V2Cluster) (viaAPI : Bool) : PrimaryCluster × Option RcuErr :=
  let cfg2 := deepCopyCluster cfg
  let r := pc.configLock.update cfg2
  ({ cluster := c, addedViaAPI := viaAPI, configUsed := cfg2, configLock := r.1 },
   r.2)

/-- `primaryCluster.UpdateHosts(hosts)`: update the in-memory cluster's hosts,
take the cluster's final host list, rewrite the stored configuration's host
list from it, and push the configuration through the RCU cell. -/
def PrimaryCluster.updateHosts (pc : PrimaryCluster) (hosts : List Host) :
    PrimaryCluster × Option RcuErr :=
  let c := pc.cluster.updateHosts hosts
  let finalHosts := c.hosts
  let cfg := { deepCopyCluster pc.configUsed with hosts := finalHosts.map Host.config }
  let r := pc.configLock.update cfg
  ({ pc with cluster := c, configUsed := cfg, configLock := r.1 }, r.2)

/-- `clusterManager`: the primary-cluster registry (the protocol-indexed pool
cache is modelled separately with the pool-selection loop). -/
structure ClusterManager where
  primaryClusters : List (String × PrimaryCluster)
deriving DecidableEq

/-- `clusterSnapshot`: the read-only handle returned by `GetClusterSnapshot`.
The `cellName` field models the Go snapshot's pointer to the primary
cluster's RCU cell (identified by the registry key). -/
structure ClusterSnapshot where
  prioritySet : List (List Host)
  clusterName : String
  cellName : String
  config : V2Cluster
deriving DecidableEq

/-- Errors returned by the cluster manager's mutators, one constructor per Go
error-formatting site, carrying the names the message interpolates. -/
inductive CMErr where
  | removePrimaryNotViaAPI : String → CMErr
  | removePrimaryMissing : String → CMErr
  | updateHostsFailed : String → CMErr
  | updateHostsClusterMissing : String → CMErr
  | appendHostsFailed : String → CMErr
  | appendHostsClusterMissing : String → CMErr
  | removeHostEmptyAddress : CMErr
  | removeHostFailed : String → String → CMErr
  | removeHostMissingAddress : String → CMErr
  | removeHostClusterMissing : String → CMErr
deriving DecidableEq

/-- `clusterManager.loadCluster(clusterConfig, addedViaAPI)`: construct the
cluster, initialize it (the registered member-update callback is a no-op) and
register the primary cluster; with construction total this always reports
success. -/
def ClusterManager.loadCluster (cm : ClusterManager) (cfg : V2Cluster)
    (viaAPI : Bool) : ClusterManager × Bool :=
  let cluster := NewCluster cfg
  ({ primaryClusters :=
      mapStore cm.primaryClusters cfg.name (NewPrimaryCluster cluster cfg viaAPI) },
   true)

/-- `clusterManager.updateCluster(clusterConf, pcluster, addedViaAPI)`: a
configuration `reflect.DeepEqual` to the stored one is a logged no-op treated
as success; otherwise a new cluster is built, given the old cluster's hosts,
and installed in the primary cluster (clusters built by `NewCluster` are
always `simpleInMemCluster`, so that branch is always taken). -/
def ClusterManager.updateCluster (cm : ClusterManager) (cfg : V2Cluster)
    (pc : PrimaryCluster) (viaAPI : Bool) : ClusterManager × Bool :=
  if cfg = pc.configUsed then (cm, true)
  else
    let hosts := pc.cluster.hosts
    let cluster := (NewCluster cfg).updateHosts hosts
    let r := pc.updateCluster cluster cfg viaAPI
    ({ primaryClusters := mapStore cm.primaryClusters cfg.name r.1 }, true)

/-- `clusterManager.AddOrUpdatePrimaryCluster(cluster)`: reject updates to
registered clusters not added via API; update registered API clusters; load
unregistered ones. -/
def ClusterManager.addOrUpdatePrimaryCluster (cm : ClusterManager)
    (cfg : V2Cluster) : ClusterManager × Bool :=
  match mapFind cm.primaryClusters cfg.name with
  | some pc =>
    if pc.addedViaAPI = false then (cm, false)
    else cm.updateCluster cfg pc true
  | none => cm.loadCluster cfg true

/-- `clusterManager.RemovePrimaryCluster(clusterNames...)`: process the names
in order, deleting each API-added cluster; stop with an error at the first
name that is registered without `addedViaAPI` or not registered at all
(deletions performed for earlier names remain). -/
def ClusterManager.removePrimaryCluster :
    ClusterManager → List String → ClusterManager × Option CMErr
  | cm, [] => (cm, none)
  | cm, n :: rest =>
    match mapFind cm.primaryClusters n with
    | some pc =>
      if pc.addedViaAPI = false then (cm, some (.removePrimaryNotViaAPI n))
      else
        ClusterManager.removePrimaryCluster
          { primaryClusters := mapDelete cm.primaryClusters n } rest
    | none => (cm, some (.removePrimaryMissing n))

/-- `clusterManager.UpdateClusterHosts(clusterName, priority, hostConfigs)`:
build hosts from the configurations and hand them to the primary cluster; the
priority argument is accepted but never used.  When the primary cluster's
update reports an error its state changes nevertheless persist (the Go method
mutated the shared record in place before returning the error). -/
def ClusterManager.updateClusterHosts (cm : ClusterManager)
    (clusterName : String) (_priority : Nat) (hostConfigs : List V2Host) :
    ClusterManager × Option CMErr :=
  match mapFind cm.primaryClusters clusterName with
  | some pc =>
    let hosts := hostConfigs.map NewHost
    let r := pc.updateHosts hosts
    let cm2 : ClusterManager :=
      { primaryClusters := mapStore cm.primaryClusters clusterName r.1 }
    match r.2 with
    | some _ => (cm2, some (.updateHostsFailed clusterName))
    | none => (cm2, none)
  | none => (cm, some (.updateHostsClusterMissing clusterName))

/-- `clusterManager.GetClusterSnapshot(context, clusterName)`: nil for an
unregistered name; otherwise a snapshot of the primary cluster's priority
set, identity, and the configuration read from the RCU cell by `Load()`
(which increments the cell's reader count in the manager's state). -/
def ClusterManager.getClusterSnapshot (cm : ClusterManager)
    (clusterName : String) : Option ClusterSnapshot × ClusterManager :=
  match mapFind cm.primaryClusters clusterName with
  | some pc =>
    let r := pc.configLock.load
    (some { prioritySet := pc.cluster.prioritySet, clusterName := clusterName,
            cellName := clusterName, config := r.1 },
     { primaryClusters :=
        mapStore cm.primaryClusters clusterName { pc with configLock := r.2 } })
  | none => (none, cm)

/-- `clusterManager.PutClusterSnapshot(snapshot)`: a nil snapshot is ignored;
otherwise the snapshot's configuration value is handed back to the RCU cell
it was loaded from via `Put`, decrementing that cell's reader count. -/
def ClusterManager.putClusterSnapshot (cm : ClusterManager)
    (snap : Option ClusterSnapshot) : ClusterManager :=
  match snap with
  | none => cm
  | some s =>
    match mapFind cm.primaryClusters s.cellName with
    | some pc =>
      { primaryClusters :=
          mapStore cm.primaryClusters s.cellName
            { pc with configLock := pc.configLock.put s.config } }
    | none => cm

/-- The host-splice loop of `RemoveClusterHost`: find the first host whose
`AddressString` matches and return the list with exactly that host removed
(`hosts[:i] ++ hosts[i+1:]`), or nothing when no host matches. -/
def removeFirstByAddr : List Host → String → Option (List Host)
  | [], _ => none
  | h :: t, a =>
    if h.addressString = a then some t
    else
      match removeFirstByAddr t a with
      | some t2 => some (h :: t2)
      | none => none

/-- `clusterManager.RemoveClusterHost(clusterName, hostAddress)`: reject an
empty address; reject an unregistered cluster; in the registered cluster
(always a `simpleInMemCluster`, so the invalid-cluster branch is dead) remove
the first host whose address matches and install the shortened list, or
report that the address does not exist. -/
def ClusterManager.removeClusterHost (cm : ClusterManager)
    (clusterName hostAddress : String) : ClusterManager × Option CMErr :=
  if hostAddress = "" then (cm, some .removeHostEmptyAddress)
  else
    match mapFind cm.primaryClusters clusterName with
    | some pc =>
      match removeFirstByAddr pc.cluster.hosts hostAddress with
      | some newHosts =>
        let r := pc.updateHosts newHosts
        let cm2 : ClusterManager :=
          { primaryClusters := mapStore cm.primaryClusters clusterName r.1 }
        match r.2 with
        | some _ => (cm2, some (.removeHostFailed hostAddress clusterName))
        | none => (cm2, none)
      | none => (cm, some (.removeHostMissingAddress hostAddress))
    | none => (cm, some (.removeHostClusterMissing clusterName))

/-- The kind of snapshot value handed to `TCPConnForCluster`: a nil
interface, a foreign implementation of `types.ClusterSnapshot`, or the
manager's own `clusterSnapshot`. -/
inductive SnapshotArg where
  | nilSnapshot : SnapshotArg
  | foreign : SnapshotArg
  | internal : ClusterSnapshot → SnapshotArg
deriving DecidableEq

/-- `types.CreateConnectionData` as far as the claims observe it: the address
of the host a connection was dialed to, or nothing for the empty value. -/
structure CreateConnectionData where
  connectedAddr : Option String
deriving DecidableEq

/-- `clusterManager.TCPConnForCluster(lbCtx, snapshot)`: empty data for a nil
snapshot, for a snapshot of a foreign type, and when the load balancer
chooses no host; otherwise the chosen host's `CreateConnection` result.  The
load balancer's answer for this call is the `lbChoice` argument. -/
def tcpConnForCluster (snapshot : SnapshotArg) (lbChoice : Option Host) :
    CreateConnectionData :=
  match snapshot with
  | .nilSnapshot => ⟨none⟩
  | .foreign => ⟨none⟩
  | .internal _ =>
    match lbChoice with
    | some h => ⟨some h.addressString⟩
    | none => ⟨none⟩

/-- The environment `getActiveConnectionPool` runs in: the load balancer's
answer to the k-th `ChooseHost` call, the `CheckAndInit` answer for the pool
of a given address after a given number of elapsed wait stages (stage 0 is
the initial choice loop), whether `network.ConnNewPoolFactories` has a
factory for the protocol, and the cancellation state of the downstream
context's token (which the Go code receives but never inspects). -/
structure PoolEnv where
  chooseHost : Nat → Option String
  ready : String → Nat → Bool
  hasPoolFactory : Bool
  ctxCancelled : Bool

/-- The result of `getActiveConnectionPool`: a pool (identified by its host
address) or one of the three error returns of the Go function. -/
inductive PoolResult where
  | ok : String → PoolResult
  | errChooseHostNil : PoolResult
  | errNoPoolFactory : PoolResult
  | errNoHealthHosts : PoolResult
deriving DecidableEq

/-- Observable schedule of one `getActiveConnectionPool` call: how many
`ChooseHost` calls were made and which `time.Sleep` durations (in
milliseconds) ran, in order. -/
structure PoolTrace where
  hostChoices : Nat
  sleepsMs : List Nat
deriving DecidableEq

/-- The first loop of `getActiveConnectionPool` (`for i := 0; i < cycleTimes`):
choose a host; a nil choice is an immediate error; a cached pool that is
ready is returned immediately, a cached pool that is not ready is
remembered; an uncached address creates and caches a pool whose
`CheckAndInit` result is ignored — the new pool is remembered regardless
(without a pool factory for the protocol this is an error).  Returns either
the early result with the number of choices made, or the final cache and
remembered pools. -/
def poolCycleLoop (choose : Nat → Option String) (ready : String → Nat → Bool)
    (hasFactory : Bool) :
    Nat → Nat → List String → List String →
      Sum (PoolResult × Nat) (List String × List String)
  | 0, _, cache, remembered => Sum.inr (cache, remembered)
  | fuel + 1, i, cache, remembered =>
    match choose i with
    | none => Sum.inl (.errChooseHostNil, i + 1)
    | some addr =>
      if addr ∈ cache then
        if ready addr 0 then Sum.inl (.ok addr, i + 1)
        else poolCycleLoop choose ready hasFactory fuel (i + 1) cache
          (remembered ++ [addr])
      else
        if hasFactory then
          poolCycleLoop choose ready hasFactory fuel (i + 1) (addr :: cache)
            (remembered ++ [addr])
        else Sum.inl (.errNoPoolFactory, i + 1)

/-- One re-poll of the remembered pools (`pools[i].CheckAndInit`), in slot
order, after the given wait stage. -/
def poolPoll (ready : String → Nat → Bool) (remembered : List String)
    (stage : Nat) : Option String :=
  remembered.find? fun a => ready a stage

/-- The wait loop of `getActiveConnectionPool`: sleep `10 ^ (stage - 1)` ms
(1, 10, 100, 1000 for stages 1–4), re-poll the remembered pools, return the
first ready one; returns the sleeps performed and the found pool, if any. -/
def poolWaitLoop (ready : String → Nat → Bool) (remembered : List String) :
    Nat → Nat → List Nat × Option String
  | _, 0 => ([], none)
  | stage, fuel + 1 =>
    let w := 10 ^ (stage - 1)
    match poolPoll ready remembered stage with
    | some a => ([w], some a)
    | none =>
      let r := poolWaitLoop ready remembered (stage + 1) fuel
      (w :: r.1, r.2)

/-- `clusterManager.getActiveConnectionPool`: run the five-choice loop over
the protocol's pool cache, then the four-stage wait loop over the remembered
pools, and fail with the no-health-hosts error when the schedule is
exhausted. -/
def getActiveConnectionPool (env : PoolEnv) (cache : List String) :
    PoolResult × PoolTrace :=
  match poolCycleLoop env.chooseHost env.ready env.hasPoolFactory 5 0 cache [] with
  | Sum.inl (r, n) => (r, ⟨n, []⟩)
  | Sum.inr (_, remembered) =>
    match poolWaitLoop env.ready remembered 1 4 with
    | (ws, some a) => (.ok a, ⟨5, ws⟩)
    | (ws, none) => (.errNoHealthHosts, ⟨5, ws⟩)

/-- The addresses of a host list. -/
def hostAddresses (hs : List Host) : List String := hs.map Host.addressString

/-- The host set a snapshot exposes at a priority (empty when the priority
set has no entry there). -/
def hostSetAtPriority (s : ClusterSnapshot) (p : Nat) : List Host :=
  s.prioritySet.getD p []

/-- Address-set equality of two address lists. -/
def addrSetEq (l1 l2 : List String) : Prop :=
  (∀ a ∈ l1, a ∈ l2) ∧ (∀ a ∈ l2, a ∈ l1)

instance addrSetEqDecidable (l1 l2 : List String) : Decidable (addrSetEq l1 l2) :=
  inferInstanceAs (Decidable ((∀ a ∈ l1, a ∈ l2) ∧ (∀ a ∈ l2, a ∈ l1)))

/-- The wait durations `poolWaitLoop` runs through from a stage for a fuel:
`10 ^ (stage - 1)` milliseconds each. -/
def waitSchedule : Nat → Nat → List Nat
  | _, 0 => []
  | s, f + 1 => 10 ^ (s - 1) :: waitSchedule (s + 1) f

/-- A sample host configuration for the concrete cases. -/
def sampleHostConfig : V2Host := ⟨"127.0.0.1:8080", "", 1⟩

/-- A second sample host configuration. -/
def sampleHostConfig2 : V2Host := ⟨"127.0.0.1:8081", "", 1⟩

/-- A sample cluster configuration named c. -/
def sampleClusterConfig : V2Cluster := ⟨"c", [], 0⟩

/-- A manager holding the single API-added cluster c with no hosts. -/
def managerWithC : ClusterManager :=
  ((ClusterManager.mk []).loadCluster sampleClusterConfig true).1

/-- Configuration of an API-added cluster named a. -/
def apiClusterConfig : V2Cluster := ⟨"a", [], 0⟩

/-- Configuration of a static (non-API) cluster named b. -/
def staticClusterConfig : V2Cluster := ⟨"b", [], 0⟩

/-- A manager holding API-added cluster a and static cluster b. -/
def managerApiStatic : ClusterManager :=
  { primaryClusters :=
      [("a", NewPrimaryCluster (NewCluster apiClusterConfig) apiClusterConfig true),
       ("b", NewPrimaryCluster (NewCluster staticClusterConfig) staticClusterConfig false)] }

/-- A manager holding cluster c with two hosts installed at priority 0. -/
def managerWithHosts : ClusterManager :=
  (managerWithC.updateClusterHosts "c" 0 [sampleHostConfig, sampleHostConfig2]).1

/-- The primary cluster stored for c in `managerWithHosts`. -/
def primaryWithHosts : PrimaryCluster :=
  ((NewPrimaryCluster (NewCluster sampleClusterConfig) sampleClusterConfig
      true).updateHosts
    [NewHost sampleHostConfig, NewHost sampleHostConfig2]).1

/-- Pool environment: the load balancer always picks the same host and every
pool reports ready from the start. -/
def poolEnvAllReady : PoolEnv :=
  { chooseHost := fun _ => some "127.0.0.1:8080", ready := fun _ _ => true,
    hasPoolFactory := true, ctxCancelled := false }

/-- Pool environment: cancelled downstream context, no pool ever ready. -/
def poolEnvCancelled : PoolEnv :=
  { chooseHost := fun _ => some "127.0.0.1:8080", ready := fun _ _ => false,
    hasPoolFactory := true, ctxCancelled := true }

/- Association-map lemmas shared by the proofs below. -/

theorem mapFind_mapStore_self {α : Type} (l : List (String × α)) (k : String)
    (v : α) : mapFind (mapStore l k v) k = some v := by
  induction l with
  | nil => simp [mapStore, mapFind]
  | cons p t ih =>
    obtain ⟨k0, v0⟩ := p
    by_cases h : k0 = k <;> simp [mapStore, mapFind, h, ih]

theorem mapFind_mapStore_ne {α : Type} (l : List (String × α)) (k k2 : String)
    (v : α) (hne : k2 ≠ k) : mapFind (mapStore l k v) k2 = mapFind l k2 := by
  have hne2 : ¬k = k2 := fun h => hne h.symm
  induction l with
  | nil => simp [mapStore, mapFind, hne2]
  | cons p t ih =>
    obtain ⟨k0, v0⟩ := p
    by_cases h : k0 = k
    · subst h
      simp [mapStore, mapFind, hne2]
    · simp [mapStore, mapFind, h, ih]

theorem mapFind_mapDelete_self {α : Type} (l : List (String × α)) (k : String) :
    mapFind (mapDelete l k) k = none := by
  induction l with
  | nil => simp [mapDelete, mapFind]
  | cons p t ih =>
    obtain ⟨k0, v0⟩ := p
    by_cases h : k0 = k <;> simp [mapDelete, mapFind, h, ih]

theorem mapFind_mapDelete_ne {α : Type} (l : List (String × α)) (k k2 : String)
    (hne : k2 ≠ k) : mapFind (mapDelete l k) k2 = mapFind l k2 := by
  have hne2 : ¬k = k2 := fun h => hne h.symm
  induction l with
  | nil => simp [mapDelete]
  | cons p t ih =>
    obtain ⟨k0, v0⟩ := p
    by_cases h : k0 = k
    · subst h
      simp [mapDelete, mapFind, hne2, ih]
    · simp [mapDelete, mapFind, h, ih]

/-- C8: for every health-check configuration, `CreateHealthCheck` builds the
checker with the session factory registered for the configuration's protocol
when one is registered, and for every unregistered protocol it silently falls
back to the TCP-dial session factory. -/
theorem CreateHealthCheck_factory_selection
    (factories : List (String × SessionFactory)) (cfg : HealthCheckCfg) :
    (∀ f, mapFind factories cfg.protocol = some f →
      CreateHealthCheck factories cfg = newHealthChecker cfg f)
  ∧ (mapFind factories cfg.protocol = none →
      CreateHealthCheck factories cfg = newHealthChecker cfg .tcpDial) := by
  constructor
  · intro f hf
    simp [CreateHealthCheck, hf]
  · intro hf
    simp [CreateHealthCheck, hf]

/-- Witness for C8: a registered protocol gets its registered factory, an
unregistered one gets the TCP-dial fallback. -/
theorem CreateHealthCheck_factory_selection_witness :
    CreateHealthCheck [("http1", SessionFactory.custom "httpGet")] ⟨"http1", 0⟩
      = newHealthChecker ⟨"http1", 0⟩ (SessionFactory.custom "httpGet")
  ∧ CreateHealthCheck [("http1", SessionFactory.custom "httpGet")] ⟨"sofarpc", 0⟩
      = newHealthChecker ⟨"sofarpc", 0⟩ SessionFactory.tcpDial :=
  ⟨(CreateHealthCheck_factory_selection _ _).1 _ (by decide),
   (CreateHealthCheck_factory_selection _ _).2 (by decide)⟩

/-- C10: `RegisterCommonCallbacks` returns false on every input — when the
name is already registered the stored callback is kept unchanged, and when
the callback is stored under a fresh name the function still returns false. -/
theorem RegisterCommonCallbacks_always_false
    (callbacks : List (String × Nat)) (name : String) (cb : Nat) :
    (RegisterCommonCallbacks callbacks name cb).2 = false
  ∧ (∀ old, mapFind callbacks name = some old →
      (RegisterCommonCallbacks callbacks name cb).1 = callbacks
        ∧ mapFind (RegisterCommonCallbacks callbacks name cb).1 name = some old)
  ∧ (mapFind callbacks name = none →
      mapFind (RegisterCommonCallbacks callbacks name cb).1 name = some cb) := by
  refine ⟨?_, ?_, ?_⟩
  · cases h : mapFind callbacks name <;> simp [RegisterCommonCallbacks, h]
  · intro old hold
    simp [RegisterCommonCallbacks, hold]
  · intro hnone
    simp [RegisterCommonCallbacks, hnone, mapFind_mapStore_self]

/-- Witness for C10: both the fresh-name and the taken-name registration
return false. -/
theorem RegisterCommonCallbacks_always_false_witness :
    (RegisterCommonCallbacks [] "cb1" 7).2 = false
  ∧ (RegisterCommonCallbacks [("cb1", 7)] "cb1" 9).1 = [("cb1", 7)]
  ∧ mapFind (RegisterCommonCallbacks [] "cb1" 7).1 "cb1" = some 7 :=
  ⟨(RegisterCommonCallbacks_always_false [] "cb1" 7).1,
   ((RegisterCommonCallbacks_always_false [("cb1", 7)] "cb1" 9).2.1 7 (by decide)).1,
   (RegisterCommonCallbacks_always_false [] "cb1" 7).2.2 (by decide)⟩

/-- C9: `TCPConnForCluster` is total: a nil snapshot, a snapshot of a foreign
type, and a nil load-balancer choice each yield the empty connection data
without dialing; a connection is dialed only when a host was chosen from the
manager's own snapshot type. -/
theorem tcpConnForCluster_total (s : SnapshotArg) (lbChoice : Option Host) :
    tcpConnForCluster .nilSnapshot lbChoice = ⟨none⟩
  ∧ tcpConnForCluster .foreign lbChoice = ⟨none⟩
  ∧ (∀ cs, tcpConnForCluster (.internal cs) none = ⟨none⟩)
  ∧ (∀ a, (tcpConnForCluster s lbChoice).connectedAddr = some a →
      ∃ cs h, s = .internal cs ∧ lbChoice = some h ∧ a = h.addressString) := by
  refine ⟨rfl, rfl, fun cs => rfl, ?_⟩
  intro a ha
  cases s with
  | nilSnapshot => simp [tcpConnForCluster] at ha
  | foreign => simp [tcpConnForCluster] at ha
  | internal cs =>
    cases lbChoice with
    | none => simp [tcpConnForCluster] at ha
    | some h =>
      simp [tcpConnForCluster] at ha
      exact ⟨cs, h, rfl, rfl, ha.symm⟩

/-- Witness for C9: a chosen host is dialed, an absent choice is not. -/
theorem tcpConnForCluster_total_witness :
    tcpConnForCluster
        (.internal ⟨[], "c", "c", sampleClusterConfig⟩) (some (NewHost sampleHostConfig))
      = ⟨some "127.0.0.1:8080"⟩
  ∧ tcpConnForCluster (.internal ⟨[], "c", "c", sampleClusterConfig⟩) none = ⟨none⟩ :=
  ⟨rfl,
   (tcpConnForCluster_total
      (.internal ⟨[], "c", "c", sampleClusterConfig⟩) none).2.2.1 _⟩

/-- C4: `AddOrUpdatePrimaryCluster`: an unregistered name is constructed,
initialized and registered with the call returning true; a registered cluster
not added via API rejects the update, returning false with the manager
unchanged; a registered API cluster whose stored configuration is identical
to the new one is a no-op treated as success. -/
theorem addOrUpdatePrimaryCluster_cases (cm : ClusterManager) (cfg : V2Cluster) :
    (mapFind cm.primaryClusters cfg.name = none →
      (cm.addOrUpdatePrimaryCluster cfg).2 = true
        ∧ mapFind (cm.addOrUpdatePrimaryCluster cfg).1.primaryClusters cfg.name
            = some (NewPrimaryCluster (NewCluster cfg) cfg true))
  ∧ (∀ pc, mapFind cm.primaryClusters cfg.name = some pc →
      pc.addedViaAPI = false → cm.addOrUpdatePrimaryCluster cfg = (cm, false))
  ∧ (∀ pc, mapFind cm.primaryClusters cfg.name = some pc →
      pc.addedViaAPI = true → cfg = pc.configUsed →
      cm.addOrUpdatePrimaryCluster cfg = (cm, true)) := by
  refine ⟨?_, ?_, ?_⟩
  · intro h
    simp [ClusterManager.addOrUpdatePrimaryCluster, h, ClusterManager.loadCluster,
      mapFind_mapStore_self]
  · intro pc h hapi
    simp [ClusterManager.addOrUpdatePrimaryCluster, h, hapi]
  · intro pc h hapi heq
    have hupd : cm.updateCluster cfg pc true = (cm, true) := by
      rw [ClusterManager.updateCluster, if_pos heq]
    simp [ClusterManager.addOrUpdatePrimaryCluster, h, hapi, hupd]

/-- Witness for C4: loading a fresh cluster succeeds, a static cluster
rejects the update, and re-sending the stored configuration is a no-op
success. -/
theorem addOrUpdatePrimaryCluster_cases_witness :
    ((ClusterManager.mk []).addOrUpdatePrimaryCluster sampleClusterConfig).2 = true
  ∧ managerApiStatic.addOrUpdatePrimaryCluster staticClusterConfig
      = (managerApiStatic, false)
  ∧ managerApiStatic.addOrUpdatePrimaryCluster apiClusterConfig
      = (managerApiStatic, true) :=
  ⟨((addOrUpdatePrimaryCluster_cases (ClusterManager.mk []) sampleClusterConfig).1
      (by decide)).1,
   (addOrUpdatePrimaryCluster_cases managerApiStatic staticClusterConfig).2.1
      (NewPrimaryCluster (NewCluster staticClusterConfig) staticClusterConfig false)
      (by decide) (by decide),
   (addOrUpdatePrimaryCluster_cases managerApiStatic apiClusterConfig).2.2
      (NewPrimaryCluster (NewCluster apiClusterConfig) apiClusterConfig true)
      (by decide) (by decide) (by decide)⟩

/-- C3: `GetClusterSnapshot` returns nil exactly when the name is not
registered; for a registered name the snapshot's configuration is the value
obtained from the RCU cell's `Load()` — incrementing the cell's reader
count — and `PutClusterSnapshot` on that snapshot hands exactly that
configuration back to the same cell via `Put`, decrementing the reader count
back to its original value (the primary cluster is restored exactly). -/
theorem getClusterSnapshot_rcu (cm : ClusterManager) (c : String) :
    ((cm.getClusterSnapshot c).1 = none ↔ mapFind cm.primaryClusters c = none)
  ∧ (∀ pc, mapFind cm.primaryClusters c = some pc →
      ∃ s, (cm.getClusterSnapshot c).1 = some s
        ∧ s.config = (pc.configLock.load).1
        ∧ mapFind (cm.getClusterSnapshot c).2.primaryClusters c
            = some { pc with configLock := (pc.configLock.load).2 }
        ∧ (pc.configLock.load).2.readerCount = pc.configLock.readerCount + 1
        ∧ mapFind ((cm.getClusterSnapshot c).2.putClusterSnapshot
              ((cm.getClusterSnapshot c).1)).primaryClusters c = some pc) := by
  constructor
  · cases h : mapFind cm.primaryClusters c <;>
      simp [ClusterManager.getClusterSnapshot, h]
  · intro pc h
    have hget : (cm.getClusterSnapshot c).1
        = some { prioritySet := pc.cluster.prioritySet, clusterName := c,
                 cellName := c, config := (pc.configLock.load).1 } := by
      simp [ClusterManager.getClusterSnapshot, h]
    refine ⟨_, hget, rfl, ?_, rfl, ?_⟩
    · simp [ClusterManager.getClusterSnapshot, h, mapFind_mapStore_self]
    · simp [ClusterManager.getClusterSnapshot, h, ClusterManager.putClusterSnapshot,
        mapFind_mapStore_self, RcuValue.load, RcuValue.put]

/-- Witness for C3: get-then-put on the registered cluster c restores its
primary cluster, and the loaded configuration is the cell's current value. -/
theorem getClusterSnapshot_rcu_witness :
    (managerWithC.getClusterSnapshot "nosuch").1 = none
  ∧ (∃ s, (managerWithC.getClusterSnapshot "c").1 = some s
      ∧ s.config = sampleClusterConfig) :=
  ⟨(getClusterSnapshot_rcu managerWithC "nosuch").1.mpr (by decide),
   by
    obtain ⟨s, hs, hcfg, -, -, -⟩ :=
      (getClusterSnapshot_rcu managerWithC "c").2
        (NewPrimaryCluster (NewCluster sampleClusterConfig) sampleClusterConfig true)
        (by decide)
    exact ⟨s, hs, hcfg⟩⟩

/-- C2 counterexample: on the registered cluster c, `UpdateClusterHosts` at
priority 1 succeeds, yet the snapshot's host set at priority 1 is not
address-set equal to the new host list — the priority argument is ignored and
the hosts land at priority 0. -/
theorem updateClusterHosts_priority_counterexample :
    (managerWithC.updateClusterHosts "c" 1 [sampleHostConfig]).2 = none
  ∧ (∃ s, ((managerWithC.updateClusterHosts "c" 1 [sampleHostConfig]).1.getClusterSnapshot
        "c").1 = some s
      ∧ ¬addrSetEq (hostAddresses (hostSetAtPriority s 1))
          ([sampleHostConfig].map V2Host.address)
      ∧ addrSetEq (hostAddresses (hostSetAtPriority s 0))
          ([sampleHostConfig].map V2Host.address)) :=
  ⟨by decide, ⟨_, rfl, by decide, by decide⟩⟩

/-- C2 amended: the priority argument of `UpdateClusterHosts` is ignored;
after a successful `UpdateClusterHosts(C, p, H)` the host set observed at
priority 0 of the snapshot's priority set equals `H` by address-set equality
(elementwise it carries exactly the configured addresses, in order). -/
theorem updateClusterHosts_snapshot_priority_zero (cm : ClusterManager)
    (c : String) (p : Nat) (hcs : List V2Host) :
    (cm.updateClusterHosts c p hcs).2 = none →
    ∀ s, ((cm.updateClusterHosts c p hcs).1.getClusterSnapshot c).1 = some s →
      hostAddresses (hostSetAtPriority s 0) = hcs.map V2Host.address
        ∧ addrSetEq (hostAddresses (hostSetAtPriority s 0))
            (hcs.map V2Host.address) := by
  intro hsucc s hs
  cases hfind : mapFind cm.primaryClusters c with
  | none => simp [ClusterManager.updateClusterHosts, hfind] at hsucc
  | some pc =>
    cases herr : (pc.updateHosts (hcs.map NewHost)).2 with
    | some e => simp [ClusterManager.updateClusterHosts, hfind, herr] at hsucc
    | none =>
      have hcm2 : (cm.updateClusterHosts c p hcs).1
          = { primaryClusters :=
                mapStore cm.primaryClusters c (pc.updateHosts (hcs.map NewHost)).1 } := by
        simp [ClusterManager.updateClusterHosts, hfind, herr]
      rw [hcm2] at hs
      have hfind2 : mapFind
          (mapStore cm.primaryClusters c (pc.updateHosts (hcs.map NewHost)).1) c
          = some (pc.updateHosts (hcs.map NewHost)).1 := mapFind_mapStore_self _ _ _
      simp [ClusterManager.getClusterSnapshot, hfind2] at hs
      have hps : s.prioritySet = (pc.updateHosts (hcs.map NewHost)).1.cluster.prioritySet := by
        rw [← hs]
      have hhosts : hostSetAtPriority s 0 = hcs.map NewHost := by
        rw [hostSetAtPriority, hps, PrimaryCluster.updateHosts,
          SimpleInMemCluster.updateHosts]
        cases pc.cluster.prioritySet <;> simp
      have haddr : hostAddresses (hostSetAtPriority s 0) = hcs.map V2Host.address := by
        rw [hhosts, hostAddresses, List.map_map]
        rfl
      exact ⟨haddr, by rw [haddr]; exact ⟨fun a ha => ha, fun a ha => ha⟩⟩

/-- Witness for C2 amended: after installing two hosts at (ignored) priority
3, the snapshot's priority-0 host set carries exactly their addresses. -/
theorem updateClusterHosts_snapshot_priority_zero_witness :
    hostAddresses
        (hostSetAtPriority
          (((managerWithC.updateClusterHosts "c" 3
              [sampleHostConfig, sampleHostConfig2]).1.getClusterSnapshot "c").1.getD
            ⟨[], "", "", sampleClusterConfig⟩) 0)
      = ["127.0.0.1:8080", "127.0.0.1:8081"] := by
  have h := updateClusterHosts_snapshot_priority_zero managerWithC "c" 3
    [sampleHostConfig, sampleHostConfig2] (by decide)
  have hs : ((managerWithC.updateClusterHosts "c" 3
      [sampleHostConfig, sampleHostConfig2]).1.getClusterSnapshot "c").1
      = some (((managerWithC.updateClusterHosts "c" 3
          [sampleHostConfig, sampleHostConfig2]).1.getClusterSnapshot "c").1.getD
            ⟨[], "", "", sampleClusterConfig⟩) := by decide
  exact (h _ hs).1

/- Lemmas on the remove-primary-cluster loop, shared by the C5 proofs. -/

theorem removePrimaryCluster_keeps_missing (names : List String) :
    ∀ (cm : ClusterManager) (n : String), mapFind cm.primaryClusters n = none →
      mapFind (cm.removePrimaryCluster names).1.primaryClusters n = none := by
  induction names with
  | nil =>
    intro cm n h
    simpa [ClusterManager.removePrimaryCluster] using h
  | cons m rest ih =>
    intro cm n h
    cases hm : mapFind cm.primaryClusters m with
    | none => simpa [ClusterManager.removePrimaryCluster, hm] using h
    | some pc =>
      by_cases hapi : pc.addedViaAPI = false
      · simpa [ClusterManager.removePrimaryCluster, hm, hapi] using h
      · have h2 : mapFind (mapDelete cm.primaryClusters m) n = none := by
          by_cases hnm : n = m
          · subst hnm; exact mapFind_mapDelete_self _ _
          · rw [mapFind_mapDelete_ne _ _ _ hnm]; exact h
        have h3 := ih { primaryClusters := mapDelete cm.primaryClusters m } n h2
        simpa [ClusterManager.removePrimaryCluster, hm, hapi] using h3

theorem removePrimaryCluster_keeps_static (names : List String) :
    ∀ (cm : ClusterManager) (n : String) (pc : PrimaryCluster),
      mapFind cm.primaryClusters n = some pc → pc.addedViaAPI = false →
      mapFind (cm.removePrimaryCluster names).1.primaryClusters n = some pc := by
  induction names with
  | nil =>
    intro cm n pc h _
    simpa [ClusterManager.removePrimaryCluster] using h
  | cons m rest ih =>
    intro cm n pc h hstatic
    cases hm : mapFind cm.primaryClusters m with
    | none => simpa [ClusterManager.removePrimaryCluster, hm] using h
    | some pc2 =>
      by_cases hapi : pc2.addedViaAPI = false
      · simpa [ClusterManager.removePrimaryCluster, hm, hapi] using h
      · have hnm : n ≠ m := by
          intro e
          subst e
          rw [h] at hm
          injection hm with hmm
          subst hmm
          exact hapi hstatic
        have h2 : mapFind (mapDelete cm.primaryClusters m) n = some pc := by
          rw [mapFind_mapDelete_ne _ _ _ hnm]; exact h
        have h3 := ih { primaryClusters := mapDelete cm.primaryClusters m } n pc h2 hstatic
        simpa [ClusterManager.removePrimaryCluster, hm, hapi] using h3

theorem removePrimaryCluster_success_removes (names : List String) :
    ∀ cm : ClusterManager, (cm.removePrimaryCluster names).2 = none →
      ∀ n ∈ names, mapFind (cm.removePrimaryCluster names).1.primaryClusters n = none := by
  induction names with
  | nil =>
    intro cm _ n hn
    simp at hn
  | cons m rest ih =>
    intro cm hsucc n hn
    cases hm : mapFind cm.primaryClusters m with
    | none => simp [ClusterManager.removePrimaryCluster, hm] at hsucc
    | some pc =>
      by_cases hapi : pc.addedViaAPI = false
      · simp [ClusterManager.removePrimaryCluster, hm, hapi] at hsucc
      · have hsucc2 : (ClusterManager.removePrimaryCluster
            { primaryClusters := mapDelete cm.primaryClusters m } rest).2 = none := by
          simpa [ClusterManager.removePrimaryCluster, hm, hapi] using hsucc
        have hres : cm.removePrimaryCluster (m :: rest)
            = ClusterManager.removePrimaryCluster
                { primaryClusters := mapDelete cm.primaryClusters m } rest := by
          simp [ClusterManager.removePrimaryCluster, hm, hapi]
        rw [hres]
        rcases List.mem_cons.mp hn with rfl | hn2
        · exact removePrimaryCluster_keeps_missing rest _ n (mapFind_mapDelete_self _ _)
        · exact ih _ hsucc2 n hn2

theorem removePrimaryCluster_error_names (names : List String) :
    ∀ (cm : ClusterManager) (e : CMErr), (cm.removePrimaryCluster names).2 = some e →
      ∃ n, n ∈ names ∧ (e = .removePrimaryNotViaAPI n ∨ e = .removePrimaryMissing n) := by
  induction names with
  | nil =>
    intro cm e h
    simp [ClusterManager.removePrimaryCluster] at h
  | cons m rest ih =>
    intro cm e h
    cases hm : mapFind cm.primaryClusters m with
    | none =>
      simp [ClusterManager.removePrimaryCluster, hm] at h
      exact ⟨m, List.mem_cons_self m rest, Or.inr h.symm⟩
    | some pc =>
      by_cases hapi : pc.addedViaAPI = false
      · simp [ClusterManager.removePrimaryCluster, hm, hapi] at h
        exact ⟨m, List.mem_cons_self m rest, Or.inl h.symm⟩
      · have h2 := ih { primaryClusters := mapDelete cm.primaryClusters m } e
          (by simpa [ClusterManager.removePrimaryCluster, hm, hapi] using h)
        obtain ⟨n, hn, he⟩ := h2
        exact ⟨n, List.mem_cons_of_mem m hn, he⟩

/-- C5 counterexample: removing `["a", "b"]` where a is API-added and b is
static returns the descriptive error for b, yet a has already been removed —
the manager state is not unchanged. -/
theorem removePrimaryCluster_partial_removal_counterexample :
    (managerApiStatic.removePrimaryCluster ["a", "b"]).2
      = some (.removePrimaryNotViaAPI "b")
  ∧ mapFind managerApiStatic.primaryClusters "a"
      = some (NewPrimaryCluster (NewCluster apiClusterConfig) apiClusterConfig true)
  ∧ mapFind (managerApiStatic.removePrimaryCluster ["a", "b"]).1.primaryClusters "a"
      = none :=
  ⟨by decide, by decide, by decide⟩

/-- C5 amended: `RemovePrimaryCluster` processes the names in order and only
API-added clusters are ever removed (a static cluster's record is preserved
exactly); on success every named cluster is gone; on failure the descriptive
error names an offending cluster of the list — but removals performed for
names before the offending one persist (the manager state is not rolled
back). -/
theorem removePrimaryCluster_behavior (cm : ClusterManager) (names : List String) :
    ((cm.removePrimaryCluster names).2 = none →
      ∀ n ∈ names, mapFind (cm.removePrimaryCluster names).1.primaryClusters n = none)
  ∧ (∀ n pc, mapFind cm.primaryClusters n = some pc → pc.addedViaAPI = false →
      mapFind (cm.removePrimaryCluster names).1.primaryClusters n = some pc)
  ∧ (∀ e, (cm.removePrimaryCluster names).2 = some e →
      ∃ n, n ∈ names ∧ (e = .removePrimaryNotViaAPI n ∨ e = .removePrimaryMissing n)) :=
  ⟨fun h => removePrimaryCluster_success_removes names cm h,
   fun n pc h1 h2 => removePrimaryCluster_keeps_static names cm n pc h1 h2,
   fun e he => removePrimaryCluster_error_names names cm e he⟩

/-- Witness for C5 amended: removing the API cluster a succeeds and leaves
the static cluster b in place; the error for `["a", "b"]` names b. -/
theorem removePrimaryCluster_behavior_witness :
    mapFind (managerApiStatic.removePrimaryCluster ["a"]).1.primaryClusters "a" = none
  ∧ mapFind (managerApiStatic.removePrimaryCluster ["a"]).1.primaryClusters "b"
      = some (NewPrimaryCluster (NewCluster staticClusterConfig) staticClusterConfig false)
  ∧ ∃ n, n ∈ ["a", "b"]
      ∧ (CMErr.removePrimaryNotViaAPI "b" = .removePrimaryNotViaAPI n
         ∨ CMErr.removePrimaryNotViaAPI "b" = .removePrimaryMissing n) :=
  ⟨(removePrimaryCluster_behavior managerApiStatic ["a"]).1 (by decide) "a" (by decide),
   (removePrimaryCluster_behavior managerApiStatic ["a"]).2.1 "b"
      (NewPrimaryCluster (NewCluster staticClusterConfig) staticClusterConfig false)
      (by decide) (by decide),
   (removePrimaryCluster_behavior managerApiStatic ["a", "b"]).2.2
      (CMErr.removePrimaryNotViaAPI "b") (by decide)⟩

/- Lemmas on the host-splice loop, shared by the C7 proof. -/

theorem removeFirstByAddr_of_no_match (a : String) :
    ∀ l : List Host, (∀ x ∈ l, x.addressString ≠ a) →
      removeFirstByAddr l a = none := by
  intro l
  induction l with
  | nil => intro _; rfl
  | cons h t ih =>
    intro hno
    have hh : ¬h.addressString = a := hno h (by simp)
    simp [removeFirstByAddr, hh, ih fun x hx => hno x (by simp [hx])]

theorem removeFirstByAddr_splits (a : String) (h : Host) (l2 : List Host)
    (hh : h.addressString = a) :
    ∀ l1 : List Host, (∀ x ∈ l1, x.addressString ≠ a) →
      removeFirstByAddr (l1 ++ h :: l2) a = some (l1 ++ l2) := by
  intro l1
  induction l1 with
  | nil => intro _; simp [removeFirstByAddr, hh]
  | cons y t ih =>
    intro hno
    have hy : ¬y.addressString = a := hno y (by simp)
    simp [removeFirstByAddr, hy, ih fun x hx => hno x (by simp [hx])]

/-- C7: `RemoveClusterHost` removes exactly the first host whose address
matches, preserving the relative order of the remaining hosts, and returns
nil; it errors when the address string is empty, when the cluster name is not
registered, and when no host of the cluster has the address. -/
theorem removeClusterHost_spec (cm : ClusterManager) (c a : String) :
    (a = "" → cm.removeClusterHost c a = (cm, some .removeHostEmptyAddress))
  ∧ (a ≠ "" → mapFind cm.primaryClusters c = none →
      cm.removeClusterHost c a = (cm, some (.removeHostClusterMissing c)))
  ∧ (∀ pc, a ≠ "" → mapFind cm.primaryClusters c = some pc →
      (∀ x ∈ pc.cluster.hosts, x.addressString ≠ a) →
      cm.removeClusterHost c a = (cm, some (.removeHostMissingAddress a)))
  ∧ (∀ pc l1 h l2, a ≠ "" → mapFind cm.primaryClusters c = some pc →
      pc.configLock.readerCount = 0 →
      pc.cluster.hosts = l1 ++ h :: l2 →
      (∀ x ∈ l1, x.addressString ≠ a) → h.addressString = a →
      (cm.removeClusterHost c a).2 = none
        ∧ ∃ pc2, mapFind (cm.removeClusterHost c a).1.primaryClusters c = some pc2
            ∧ pc2.cluster.hosts = l1 ++ l2) := by
  refine ⟨?_, ?_, ?_, ?_⟩
  · intro ha
    simp [ClusterManager.removeClusterHost, ha]
  · intro ha hfind
    simp [ClusterManager.removeClusterHost, ha, hfind]
  · intro pc ha hfind hno
    simp [ClusterManager.removeClusterHost, ha, hfind,
      removeFirstByAddr_of_no_match a _ hno]
  · intro pc l1 h l2 ha hfind hrc hsplit hno hmatch
    have hrem : removeFirstByAddr pc.cluster.hosts a = some (l1 ++ l2) := by
      rw [hsplit]; exact removeFirstByAddr_splits a h l2 hmatch l1 hno
    have herr : (pc.updateHosts (l1 ++ l2)).2 = none := by
      simp [PrimaryCluster.updateHosts, RcuValue.update, hrc]
    refine ⟨?_, (pc.updateHosts (l1 ++ l2)).1, ?_, ?_⟩
    · simp [ClusterManager.removeClusterHost, ha, hfind, hrem, herr]
    · simp [ClusterManager.removeClusterHost, ha, hfind, hrem, herr,
        mapFind_mapStore_self]
    · simp [PrimaryCluster.updateHosts, SimpleInMemCluster.updateHosts]

/-- Witness for C7: removing the first of the two hosts of c succeeds and
leaves exactly the second host. -/
theorem removeClusterHost_spec_witness :
    (managerWithHosts.removeClusterHost "c" "127.0.0.1:8080").2 = none
  ∧ ∃ pc2, mapFind
        (managerWithHosts.removeClusterHost "c" "127.0.0.1:8080").1.primaryClusters "c"
        = some pc2
      ∧ pc2.cluster.hosts = [] ++ [NewHost sampleHostConfig2] :=
  (removeClusterHost_spec managerWithHosts "c" "127.0.0.1:8080").2.2.2
    primaryWithHosts [] (NewHost sampleHostConfig) [NewHost sampleHostConfig2]
    (by decide) (by decide) (by decide) (by decide) (by decide) (by decide)

/- Lemmas on the pool-selection loop, shared by the C1 and C6 proofs. -/

theorem poolCycleLoop_inl_count (choose : Nat → Option String)
    (ready : String → Nat → Bool) (hasFactory : Bool) :
    ∀ (fuel i : Nat) (cache remembered : List String) (r : PoolResult) (n : Nat),
      poolCycleLoop choose ready hasFactory fuel i cache remembered
        = Sum.inl (r, n) →
      i + 1 ≤ n := by
  intro fuel
  induction fuel with
  | zero =>
    intro i cache rem r n h
    simp [poolCycleLoop] at h
  | succ f ih =>
    intro i cache rem r n h
    unfold poolCycleLoop at h
    cases hc : choose i with
    | none =>
      simp [hc] at h
      omega
    | some addr =>
      simp [hc] at h
      by_cases hmem : addr ∈ cache
      · simp [hmem] at h
        by_cases hr : ready addr 0 = true
        · simp [hr] at h
          omega
        · simp [hr] at h
          have := ih (i + 1) cache (rem ++ [addr]) r n h
          omega
      · simp [hmem] at h
        by_cases hf : hasFactory = true
        · subst hf
          simp at h
          have := ih (i + 1) (addr :: cache) (rem ++ [addr]) r n h
          omega
        · simp [hf] at h
          omega

theorem poolCycleLoop_no_ready (choose : Nat → Option String)
    (ready : String → Nat → Bool) (hready : ∀ a t, ready a t = false) :
    ∀ (fuel i : Nat) (cache remembered : List String),
      (∀ k, k < i + fuel → choose k ≠ none) →
      ∃ cache2 rem2,
        poolCycleLoop choose ready true fuel i cache remembered
          = Sum.inr (cache2, rem2) := by
  intro fuel
  induction fuel with
  | zero =>
    intro i cache rem _
    exact ⟨cache, rem, rfl⟩
  | succ f ih =>
    intro i cache rem hchoose
    have hci : choose i ≠ none := hchoose i (by omega)
    cases hc : choose i with
    | none => exact absurd hc hci
    | some addr =>
      have hr : ready addr 0 = false := hready addr 0
      by_cases hmem : addr ∈ cache
      · obtain ⟨c2, r2, hrec⟩ := ih (i + 1) cache (rem ++ [addr])
          fun k hk => hchoose k (by omega)
        exact ⟨c2, r2, by simp [poolCycleLoop, hc, hmem, hr, hrec]⟩
      · obtain ⟨c2, r2, hrec⟩ := ih (i + 1) (addr :: cache) (rem ++ [addr])
          fun k hk => hchoose k (by omega)
        exact ⟨c2, r2, by simp [poolCycleLoop, hc, hmem, hrec]⟩

theorem poolWaitLoop_no_ready (ready : String → Nat → Bool)
    (hready : ∀ a t, ready a t = false) (remembered : List String) :
    ∀ (fuel stage : Nat),
      poolWaitLoop ready remembered stage fuel
        = (waitSchedule stage fuel, none) := by
  intro fuel
  induction fuel with
  | zero =>
    intro stage
    simp [poolWaitLoop, waitSchedule]
  | succ f ih =>
    intro stage
    have hp : poolPoll ready remembered stage = none := by
      simp [poolPoll, List.find?_eq_none]
      intro a _
      simp [hready a stage]
    simp [poolWaitLoop, hp, waitSchedule, ih]

theorem gap_exhausts_schedule (env : PoolEnv) (cache : List String)
    (hready : ∀ a t, env.ready a t = false)
    (hchoose : ∀ k, k < 5 → env.chooseHost k ≠ none)
    (hf : env.hasPoolFactory = true) :
    getActiveConnectionPool env cache
      = (.errNoHealthHosts, ⟨5, [1, 10, 100, 1000]⟩) := by
  obtain ⟨c2, r2, hcyc⟩ := poolCycleLoop_no_ready env.chooseHost env.ready hready 5 0
    cache [] (by simpa using hchoose)
  have hwait := poolWaitLoop_no_ready env.ready hready r2 4 1
  have hws : waitSchedule 1 4 = [1, 10, 100, 1000] := rfl
  rw [hws] at hwait
  simp [getActiveConnectionPool, hf, hcyc, hwait]

/-- C1 counterexample: the load balancer always chooses the same host, the
pool cache is empty, and every pool reports ready; the first host choice
creates the pool and calls `CheckAndInit`, which reports ready — yet the call
does not return at that choice: the created pool's readiness is ignored, and
the function only returns at the second choice, when the pool is found in
the cache. -/
theorem getActiveConnectionPool_created_ready_not_immediate :
    poolEnvAllReady.chooseHost 0 = some "127.0.0.1:8080"
  ∧ poolEnvAllReady.ready "127.0.0.1:8080" 0 = true
  ∧ (getActiveConnectionPool poolEnvAllReady []).1 = .ok "127.0.0.1:8080"
  ∧ (getActiveConnectionPool poolEnvAllReady []).2.hostChoices = 2
  ∧ (getActiveConnectionPool poolEnvAllReady []).2.hostChoices ≠ 1 :=
  ⟨rfl, rfl, by decide, by decide, by decide⟩

/-- C1 amended: up to 5 host choices are attempted; a choice whose pool is
already cached and ready returns immediately with no waits; a choice whose
pool must be created remembers the new pool regardless of its `CheckAndInit`
result, so the call never returns at that choice; when no pool ever becomes
ready the loop makes all 5 choices, waits 1, 10, 100 and 1000 ms re-polling
the remembered pools after each wait, and returns the no-health-hosts
error. -/
theorem getActiveConnectionPool_behavior (env : PoolEnv) (cache : List String) :
    (∀ a, env.chooseHost 0 = some a → a ∈ cache → env.ready a 0 = true →
      getActiveConnectionPool env cache = (.ok a, ⟨1, []⟩))
  ∧ ((∀ a t, env.ready a t = false) → (∀ k, k < 5 → env.chooseHost k ≠ none) →
      env.hasPoolFactory = true →
      getActiveConnectionPool env cache
        = (.errNoHealthHosts, ⟨5, [1, 10, 100, 1000]⟩))
  ∧ (∀ a, env.chooseHost 0 = some a → a ∉ cache → env.hasPoolFactory = true →
      (getActiveConnectionPool env cache).2.hostChoices ≠ 1) := by
  refine ⟨?_, ?_, ?_⟩
  · intro a h0 hmem hr
    simp [getActiveConnectionPool, poolCycleLoop, h0, hmem, hr]
  · intro h1 h2 h3
    exact gap_exhausts_schedule env cache h1 h2 h3
  · intro a h0 hmem hf
    have hstep :
        poolCycleLoop env.chooseHost env.ready env.hasPoolFactory 5 0 cache []
          = poolCycleLoop env.chooseHost env.ready env.hasPoolFactory 4 1
              (a :: cache) [a] := by
      simp [poolCycleLoop, h0, hmem, hf]
    rcases hres : poolCycleLoop env.chooseHost env.ready env.hasPoolFactory 4 1
        (a :: cache) [a] with ⟨r, n⟩ | ⟨c2, r2⟩
    · have hn := poolCycleLoop_inl_count env.chooseHost env.ready env.hasPoolFactory
        4 1 (a :: cache) [a] r n hres
      have hval : (getActiveConnectionPool env cache).2.hostChoices = n := by
        simp [getActiveConnectionPool, hstep, hres]
      omega
    · have hval : (getActiveConnectionPool env cache).2.hostChoices = 5 := by
        rcases hw : poolWaitLoop env.ready r2 1 4 with ⟨ws, found⟩
        cases found <;> simp [getActiveConnectionPool, hstep, hres, hw]
      omega

/-- Witness for C1 amended: a cached ready pool returns at the first choice
with no waits; a pool created at the first choice prevents a first-choice
return. -/
theorem getActiveConnectionPool_behavior_witness :
    getActiveConnectionPool poolEnvAllReady ["127.0.0.1:8080"]
      = (.ok "127.0.0.1:8080", ⟨1, []⟩)
  ∧ (getActiveConnectionPool poolEnvAllReady []).2.hostChoices ≠ 1 :=
  ⟨(getActiveConnectionPool_behavior poolEnvAllReady ["127.0.0.1:8080"]).1
      "127.0.0.1:8080" rfl (by decide) rfl,
   (getActiveConnectionPool_behavior poolEnvAllReady []).2.2
      "127.0.0.1:8080" rfl (by decide) rfl⟩

/-- C6 counterexample: the downstream context's token is cancelled from the
start and no pool ever becomes ready, yet the retry loop runs the complete
1 + 10 + 100 + 1000 ms wait schedule and returns the no-health-hosts error —
no cancellation error exists in the function's behavior. -/
theorem getActiveConnectionPool_cancelled_counterexample :
    poolEnvCancelled.ctxCancelled = true
  ∧ getActiveConnectionPool poolEnvCancelled []
      = (.errNoHealthHosts, ⟨5, [1, 10, 100, 1000]⟩) :=
  ⟨rfl, by decide⟩

/-- C6 amended: the retry loop never inspects the cancellation token — its
result and wait schedule are identical for any token state — and a cancelled
context with no ready pool still sees the full wait schedule and the
no-health-hosts error rather than a cancellation error. -/
theorem getActiveConnectionPool_ignores_cancellation (env : PoolEnv)
    (cache : List String) :
    (∀ b, getActiveConnectionPool { env with ctxCancelled := b } cache
        = getActiveConnectionPool env cache)
  ∧ (env.ctxCancelled = true → (∀ a t, env.ready a t = false) →
      (∀ k, k < 5 → env.chooseHost k ≠ none) → env.hasPoolFactory = true →
      getActiveConnectionPool env cache
        = (.errNoHealthHosts, ⟨5, [1, 10, 100, 1000]⟩)) :=
  ⟨fun _ => rfl,
   fun _ h1 h2 h3 => gap_exhausts_schedule env cache h1 h2 h3⟩

/-- Witness for C6 amended: flipping the cancelled token does not change the
result, and the cancelled never-ready run ends in the no-health-hosts error
after the full schedule. -/
theorem getActiveConnectionPool_ignores_cancellation_witness :
    getActiveConnectionPool { poolEnvCancelled with ctxCancelled := false } []
      = getActiveConnectionPool poolEnvCancelled []
  ∧ getActiveConnectionPool poolEnvCancelled []
      = (.errNoHealthHosts, ⟨5, [1, 10, 100, 1000]⟩) :=
  ⟨(getActiveConnectionPool_ignores_cancellation poolEnvCancelled []).1 false,
   (getActiveConnectionPool_ignores_cancellation poolEnvCancelled []).2 rfl
     (fun a t => rfl)
     (by intro k hk h; simp [poolEnvCancelled] at h)
     rfl⟩

end Mosn
